import Mathlib

/-!
Verification of the FFI callback bridging and event-dispatch subsystem of
`discord_game_sdk` (Rust). Shallow embedding: Rust byte buffers are
`List Nat`, Rust strings are their UTF-8 byte lists (or `List Char` where
the source manipulates `str` by characters), fallible operations return
`Option`/`Except`, and the mutable event channels of the `Discord` owner
handle become explicit state passing over lists.

Definitions are translated from the source under `src/`; parts of the
repository that are only referenced there (the fixed-buffer codec in
`src/utils.rs`, the status-code translation in `src/to_result.rs`, the
`prevent_unwind!` macro, the raw `sys` struct decoders) are modelled from
the spec, as marked in their doc comments.
-/

namespace DiscordGameSdk

/-- A UTF-8 continuation byte (second to fourth byte of a multi-byte
sequence): `0x80 ..= 0xBF`. -/
def isCont (b : Nat) : Bool := 0x80 ≤ b && b ≤ 0xBF

/-- Validity of a byte list as UTF-8 (RFC 3629 table, the well-formedness
that Rust `str` guarantees and that `std::str::from_utf8` checks). Used to
model the decoding side of the codec: decoding fails, rather than
substituting replacement characters, exactly when this is false. -/
def utf8Valid : List Nat → Bool
  | [] => true
  | b :: rest =>
    if b ≤ 0x7F then utf8Valid rest
    else if 0xC2 ≤ b && b ≤ 0xDF then
      match rest with
      | c :: r => isCont c && utf8Valid r
      | [] => false
    else if 0xE0 ≤ b && b ≤ 0xEF then
      match rest with
      | c1 :: c2 :: r =>
        (if b = 0xE0 then decide (0xA0 ≤ c1) && decide (c1 ≤ 0xBF)
         else if b = 0xED then decide (0x80 ≤ c1) && decide (c1 ≤ 0x9F)
         else isCont c1) && isCont c2 && utf8Valid r
      | _ => false
    else if 0xF0 ≤ b && b ≤ 0xF4 then
      match rest with
      | c1 :: c2 :: c3 :: r =>
        (if b = 0xF0 then decide (0x90 ≤ c1) && decide (c1 ≤ 0xBF)
         else if b = 0xF4 then decide (0x80 ≤ c1) && decide (c1 ≤ 0x8F)
         else isCont c1) && isCont c2 && isCont c3 && utf8Valid r
      | _ => false
    else false

/-- Modelled from the spec: `charbuf_len` of `src/utils.rs` (the file is not
under `src/`; only its callers in `src/achievement.rs` and
`src/input_mode.rs` are). It scans the fixed buffer for the first zero byte
and returns its index, or the buffer's full length when no zero byte is
present. -/
def charbuf_len : List Nat → Nat
  | [] => 0
  | b :: rest => if b = 0 then 0 else charbuf_len rest + 1

/-- Modelled from the spec: `charbuf_to_str` of `src/utils.rs` (not under
`src/`). Interprets the given bytes as UTF-8 text; if they are not valid
UTF-8 the operation fails with a decoding error rather than substituting
replacement characters. The decoded string is represented by its bytes. -/
def charbuf_to_str (bytes : List Nat) : Option (List Nat) :=
  if utf8Valid bytes then some bytes else none

/-- The decode direction of the fixed-buffer codec as used by the accessors
in `src/achievement.rs` and `src/input_mode.rs`: `charbuf_len` to find the
stored length, then `charbuf_to_str` on that prefix. -/
def decode_charbuf (buf : List Nat) : Option (List Nat) :=
  charbuf_to_str (buf.take (charbuf_len buf))

/-- Modelled from the spec: `write_charbuf` of `src/utils.rs` (not under
`src/`). Encoding requires the text contain no interior NUL byte and that
its UTF-8 byte length be strictly less than the buffer's capacity;
otherwise it fails and leaves the buffer unmodified. On success it writes
the text's bytes and fills the unused trailing bytes with NUL. The result
is the returned written length (`none` on failure) paired with the
buffer's contents after the call. -/
def write_charbuf (buf text : List Nat) : Option Nat × List Nat :=
  if text.length < buf.length ∧ 0 ∉ text then
    (some text.length, text ++ List.replicate (buf.length - text.length) 0)
  else
    (none, buf)

theorem charbuf_len_append_replicate (t : List Nat) (k : Nat) (h : 0 ∉ t) :
    charbuf_len (t ++ List.replicate k 0) = t.length := by
  induction t with
  | nil =>
    cases k with
    | zero => rfl
    | succ n => simp [charbuf_len, List.replicate]
  | cons b rest ih =>
    have hb : b ≠ 0 := fun e => h (by simp [e])
    have hrest : 0 ∉ rest := fun hm => h (List.mem_cons_of_mem _ hm)
    simp [charbuf_len, hb, ih hrest]

theorem take_length_append (t r : List Nat) : (t ++ r).take t.length = t := by
  induction t with
  | nil => rfl
  | cons a t ih => simp [ih]

/-- C2: for every text `t` (valid UTF-8 bytes) with byte length strictly
less than the buffer's capacity and containing no NUL byte, encoding `t`
with `write_charbuf` and then decoding the resulting buffer with
`charbuf_len` followed by `charbuf_to_str` yields `t` exactly — no
replacement characters are substituted and nothing is truncated. -/
theorem charbuf_round_trip (buf text : List Nat)
    (hutf : utf8Valid text = true)
    (hlen : text.length < buf.length)
    (hnul : 0 ∉ text) :
    decode_charbuf (write_charbuf buf text).2 = some text := by
  have hcond : text.length < buf.length ∧ 0 ∉ text := ⟨hlen, hnul⟩
  rw [write_charbuf, if_pos hcond]
  show decode_charbuf (text ++ List.replicate (buf.length - text.length) 0) = some text
  rw [decode_charbuf, charbuf_len_append_replicate text _ hnul,
    take_length_append, charbuf_to_str, if_pos hutf]

/-- Witness for `charbuf_round_trip` at a concrete input: the two
ASCII bytes of a short text round-trip through a buffer of capacity 4. -/
theorem charbuf_round_trip_witness :
    decode_charbuf (write_charbuf [0, 0, 0, 0] [104, 105]).2 = some [104, 105] :=
  charbuf_round_trip [0, 0, 0, 0] [104, 105] (by decide) (by decide) (by decide)

/-- C3: encoding into a fixed buffer fails exactly when the text's byte
length is at least the buffer's capacity or the text contains a NUL byte;
moreover for a buffer of capacity `c`, a well-formed text of exactly
`c - 1` bytes succeeds and round-trips, while any text of exactly `c`
bytes fails. -/
theorem write_charbuf_fails_iff (buf text : List Nat) :
    ((write_charbuf buf text).1 = none ↔ buf.length ≤ text.length ∨ 0 ∈ text)
    ∧ (∀ t : List Nat, t.length + 1 = buf.length → 0 ∉ t → utf8Valid t = true →
        (write_charbuf buf t).1 = some t.length
        ∧ decode_charbuf (write_charbuf buf t).2 = some t)
    ∧ (∀ t : List Nat, t.length = buf.length → (write_charbuf buf t).1 = none) := by
  refine ⟨?_, ?_, ?_⟩
  · by_cases h : text.length < buf.length ∧ 0 ∉ text
    · rw [write_charbuf, if_pos h]
      constructor
      · intro hc
        exact absurd hc (by simp)
      · intro hc
        rcases hc with hc | hc
        · omega
        · exact absurd hc h.2
    · rw [write_charbuf, if_neg h]
      constructor
      · intro _
        rcases Decidable.not_and_iff_or_not.mp h with h1 | h1
        · exact Or.inl (by omega)
        · exact Or.inr (Decidable.not_not.mp h1)
      · intro _
        rfl
  · intro t hlen hnul hutf
    have hlt : t.length < buf.length := by omega
    constructor
    · rw [write_charbuf, if_pos ⟨hlt, hnul⟩]
    · exact charbuf_round_trip buf t hutf hlt hnul
  · intro t hlen
    have h : ¬ (t.length < buf.length ∧ 0 ∉ t) := by
      intro hc
      omega
    rw [write_charbuf, if_neg h]

/-- Witness for `write_charbuf_fails_iff` at a concrete input: with a
buffer of capacity 3, the 2-byte text `"hi"` succeeds and round-trips,
any 3-byte text fails, and a text with a NUL byte fails. -/
theorem write_charbuf_fails_iff_witness :
    (write_charbuf [0, 0, 0] [104, 105]).1 = some 2
    ∧ decode_charbuf (write_charbuf [0, 0, 0] [104, 105]).2 = some [104, 105]
    ∧ (write_charbuf [0, 0, 0] [104, 105, 106]).1 = none
    ∧ (write_charbuf [0, 0, 0] [104, 0]).1 = none := by
  refine ⟨?_, ?_, ?_, ?_⟩
  · exact ((write_charbuf_fails_iff [0, 0, 0] [104, 105]).2.1 [104, 105]
      (by decide) (by decide) (by decide)).1
  · exact ((write_charbuf_fails_iff [0, 0, 0] [104, 105]).2.1 [104, 105]
      (by decide) (by decide) (by decide)).2
  · exact (write_charbuf_fails_iff [0, 0, 0] [104, 105, 106]).2.2 [104, 105, 106] (by decide)
  · exact ((write_charbuf_fails_iff [0, 0, 0] [104, 0]).1).mpr (Or.inr (by decide))

/-- C9: for every text whose byte length is at least the buffer's
capacity, the encode fails and the buffer's contents after the call are
exactly what they were before — no prefix of the text is written and
nothing is silently truncated. -/
theorem write_charbuf_failure_frame (buf text : List Nat)
    (h : buf.length ≤ text.length) :
    (write_charbuf buf text).2 = buf ∧ (write_charbuf buf text).1 = none := by
  have hc : ¬ (text.length < buf.length ∧ 0 ∉ text) := by
    intro hcontra
    omega
  rw [write_charbuf, if_neg hc]
  exact ⟨rfl, rfl⟩

/-- Witness for `write_charbuf_failure_frame` at a concrete input: writing
a 4-byte text into a 3-byte buffer leaves the buffer's prior contents
(here `[7, 8, 9]`) untouched. -/
theorem write_charbuf_failure_frame_witness :
    (write_charbuf [7, 8, 9] [104, 105, 106, 107]).2 = [7, 8, 9]
    ∧ (write_charbuf [7, 8, 9] [104, 105, 106, 107]).1 = none :=
  write_charbuf_failure_frame [7, 8, 9] [104, 105, 106, 107] (by decide)

/-- Modelled from the spec: `ToResult::to_result` of `src/to_result.rs`
(the file is not under `src/`; only its callers in
`src/methods/storage.rs` are). It translates the native integer result
code space at the single point where a completion fires: the zero success
sentinel becomes `ok`, and every other code becomes the typed error
variant carrying that specific code. -/
def to_result (code : Int) : Except Int Unit :=
  if code = 0 then Except.ok () else Except.error code

/-- `std::slice::from_raw_parts(data, data_len)`: the byte slice built
from the completion's out-pointer and length, represented by the pointed-to
bytes truncated to the reported length. -/
def from_raw_parts (data : List Nat) (len : Nat) : List Nat := data.take len

/-- The completion adapter of `Discord::read_file_async`
(`src/methods/storage.rs`): `res.to_result().map(|()| slice)` — the status
code is translated to a typed result, and only in the success case is the
byte slice built from the out-pointer and length. -/
def read_file_async_completion (res : Int) (data : List Nat) (data_len : Nat) :
    Except Int (List Nat) :=
  (to_result res).map (fun _ => from_raw_parts data data_len)

/-- The completion adapter of `Discord::write_file_async`
(`src/methods/storage.rs`): `callback::<Result<()>>(res.to_result())`. -/
def write_file_async_completion (res : Int) : Except Int Unit :=
  to_result res

/-- C1: when a storage completion fires with the zero success sentinel the
caller's closure receives a typed `ok` result (for reads, the byte slice
built from the out-pointer and length); for every other status code it
receives the typed error variant carrying that specific code, and the
result is independent of the out-parameters — the success-shaped byte
slice is never constructed. -/
theorem storage_completion_status (res : Int) (data : List Nat) (len : Nat) :
    (res = 0 →
      read_file_async_completion res data len = Except.ok (from_raw_parts data len)
      ∧ write_file_async_completion res = Except.ok ())
    ∧ (res ≠ 0 →
      read_file_async_completion res data len = Except.error res
      ∧ (∀ (d : List Nat) (l : Nat), read_file_async_completion res d l
          = read_file_async_completion res data len)
      ∧ write_file_async_completion res = Except.error res) := by
  constructor
  · intro h
    rw [read_file_async_completion, write_file_async_completion, to_result, if_pos h]
    exact ⟨rfl, rfl⟩
  · intro h
    rw [read_file_async_completion, write_file_async_completion, to_result, if_neg h]
    refine ⟨rfl, ?_, rfl⟩
    intro d l
    rw [read_file_async_completion, to_result, if_neg h]
    rfl

/-- Witness for `storage_completion_status` at concrete inputs: status 0
delivers `ok [1, 2]`, status 3 delivers `error 3` regardless of the
out-parameters. -/
theorem storage_completion_status_witness :
    read_file_async_completion 0 [1, 2, 5] 2 = Except.ok [1, 2]
    ∧ read_file_async_completion 3 [1, 2, 5] 2 = Except.error 3
    ∧ read_file_async_completion 3 [9, 9, 9] 3 = read_file_async_completion 3 [1, 2, 5] 2
    ∧ write_file_async_completion 3 = Except.error 3 := by
  refine ⟨?_, ?_, ?_, ?_⟩
  · exact ((storage_completion_status 0 [1, 2, 5] 2).1 rfl).1
  · exact ((storage_completion_status 3 [1, 2, 5] 2).2 (by decide)).1
  · exact ((storage_completion_status 3 [1, 2, 5] 2).2 (by decide)).2.1 [9, 9, 9] 3
  · exact ((storage_completion_status 3 [1, 2, 5] 2).2 (by decide)).2.2

/-- The NUL character, `'\0'`. -/
def nulChar : Char := Char.ofNat 0

/-- The filename normalization performed, with identical code, at the top
of every filename-taking storage operation in `src/methods/storage.rs`
(`read_file`, `read_file_async`, `read_file_async_partial`, `write_file`,
`write_file_async`, `delete_file`, `file_exists`, `file_stat`):
`if !filename.ends_with('\0') { filename.to_mut().push('\0') }`. The
string is represented by its characters. -/
def nul_terminate (filename : List Char) : List Char :=
  if filename.getLast? = some nulChar then filename else filename ++ [nulChar]

theorem getLast?_append_singleton {α : Type} (l : List α) (a : α) :
    (l ++ [a]).getLast? = some a := by
  rw [List.getLast?_append_cons l a []]
  rfl

/-- C10: every filename-taking storage operation passes the native library
a string ending in a NUL byte; a single NUL is appended exactly when the
input does not already end in one, an input already ending in NUL passes
through unchanged, and the normalization is idempotent. -/
theorem storage_filename_nul_terminated (s : List Char) :
    (nul_terminate s).getLast? = some nulChar
    ∧ (s.getLast? = some nulChar → nul_terminate s = s)
    ∧ (s.getLast? ≠ some nulChar → nul_terminate s = s ++ [nulChar])
    ∧ nul_terminate (nul_terminate s) = nul_terminate s := by
  by_cases h : s.getLast? = some nulChar
  · have heq : nul_terminate s = s := by
      simp only [nul_terminate, if_pos h]
    refine ⟨?_, fun _ => heq, fun hn => absurd h hn, ?_⟩
    · rw [heq]
      exact h
    · rw [heq]
      exact heq
  · have heq : nul_terminate s = s ++ [nulChar] := by
      simp only [nul_terminate, if_neg h]
    have hend : (s ++ [nulChar]).getLast? = some nulChar :=
      getLast?_append_singleton s nulChar
    refine ⟨?_, fun hc => absurd hc h, fun _ => heq, ?_⟩
    · rw [heq]
      exact hend
    · rw [heq]
      simp only [nul_terminate, if_pos hend]

/-- Witness for `storage_filename_nul_terminated` at concrete inputs: the
filename `"a"` gains exactly one NUL, and `"a\0"` is passed through
unchanged. -/
theorem storage_filename_nul_terminated_witness :
    nul_terminate [Char.ofNat 97] = [Char.ofNat 97, Char.ofNat 0]
    ∧ nul_terminate [Char.ofNat 97, Char.ofNat 0] = [Char.ofNat 97, Char.ofNat 0] :=
  ⟨(storage_filename_nul_terminated [Char.ofNat 97]).2.2.1 (by decide),
   (storage_filename_nul_terminated [Char.ofNat 97, Char.ofNat 0]).2.1 (by decide)⟩

/-- `UserEvent` of `src/event.rs`. -/
inductive UserEvent where
  | currentUserUpdated
deriving DecidableEq

/-- A decoded user: `User` as produced from the raw `sys::DiscordUser`
struct (text fields hold the decoded UTF-8 bytes). -/
structure User where
  id : Int
  username : List Nat
  discriminator : List Nat
  avatar : List Nat
  bot : Bool
deriving DecidableEq

/-- A decoded activity as produced from the raw `sys::DiscordActivity`
struct (text fields hold the decoded UTF-8 bytes; the source field named
`instance` appears here as `instance_flag`, `instance` being a reserved
word). -/
structure Activity where
  application_id : Int
  name : List Nat
  state : List Nat
  details : List Nat
  large_image : List Nat
  large_text : List Nat
  small_image : List Nat
  small_text : List Nat
  party_id : List Nat
  secret_match : List Nat
  secret_join : List Nat
  secret_spectate : List Nat
  instance_flag : Bool
deriving DecidableEq

/-- `ActivityEvent` of `src/event.rs` (string payloads as UTF-8 bytes). -/
inductive ActivityEvent where
  | join (secret : List Nat)
  | spectate (secret : List Nat)
  | request (user : User)
  | invite (user : User) (activity : Activity)
deriving DecidableEq

/-- `OverlayEvent` of `src/event.rs`. -/
inductive OverlayEvent where
  | opened
  | closed
deriving DecidableEq

/-- `VoiceEvent` of `src/event.rs`. -/
inductive VoiceEvent where
  | settingsUpdated
deriving DecidableEq

/-- Modelled from the spec: the Owner Handle (`Discord`, whose defining
file is not under `src/`) restricted to its event channels — the mutable
state written by the dispatch-table callbacks of `src/event.rs`. One
ordered queue per subsystem event kind, each represented front-to-back as
a list. -/
structure Discord where
  user_events : List UserEvent
  activity_events : List ActivityEvent
  overlay_events : List OverlayEvent
  voice_events : List VoiceEvent
deriving DecidableEq

/-- Modelled from the spec: `single_write`, the channel send used by every
dispatch-table callback of `src/event.rs` — the channel is an ordered,
unbounded FIFO queue, so a send appends one event at the tail and never
fails. -/
def single_write {α : Type} (q : List α) (e : α) : List α := q ++ [e]

/-- Modelled from the spec: `from_cstr` of `src/utils.rs` (not under
`src/`): decodes the bytes of a NUL-terminated C string as UTF-8, failing
on invalid UTF-8. The argument is the pointed-to byte sequence before the
terminator. -/
def from_cstr (bytes : List Nat) : Option (List Nat) :=
  if utf8Valid bytes then some bytes else none

/-- Modelled from the spec: `User::from_sys_ptr` (its file is not under
`src/`): copies the raw `sys::DiscordUser` struct into an owned value,
decoding each fixed text buffer with the codec and failing if any is
invalid. The raw struct is represented by its scalar fields plus the raw
contents of its fixed buffers. -/
structure DiscordUser where
  id : Int
  username : List Nat
  discriminator : List Nat
  avatar : List Nat
  bot : Bool

def User.from_sys (u : DiscordUser) : Option User := do
  let username ← decode_charbuf u.username
  let discriminator ← decode_charbuf u.discriminator
  let avatar ← decode_charbuf u.avatar
  pure ⟨u.id, username, discriminator, avatar, u.bot⟩

/-- Modelled from the spec: `Activity::from_sys_ptr` (its file is not
under `src/`): copies the raw `sys::DiscordActivity` struct into an owned
value, decoding each fixed text buffer with the codec and failing if any
is invalid. -/
structure DiscordActivity where
  application_id : Int
  name : List Nat
  state : List Nat
  details : List Nat
  large_image : List Nat
  large_text : List Nat
  small_image : List Nat
  small_text : List Nat
  party_id : List Nat
  secret_match : List Nat
  secret_join : List Nat
  secret_spectate : List Nat
  instance_flag : Bool

def Activity.from_sys (a : DiscordActivity) : Option Activity := do
  let name ← decode_charbuf a.name
  let state ← decode_charbuf a.state
  let details ← decode_charbuf a.details
  let large_image ← decode_charbuf a.large_image
  let large_text ← decode_charbuf a.large_text
  let small_image ← decode_charbuf a.small_image
  let small_text ← decode_charbuf a.small_text
  let party_id ← decode_charbuf a.party_id
  let secret_match ← decode_charbuf a.secret_match
  let secret_join ← decode_charbuf a.secret_join
  let secret_spectate ← decode_charbuf a.secret_spectate
  pure ⟨a.application_id, name, state, details, large_image, large_text,
    small_image, small_text, party_id, secret_match, secret_join,
    secret_spectate, a.instance_flag⟩

/-- `on_current_user_update` of `src/event.rs`: recovers the owner handle
from the context pointer and pushes `CurrentUserUpdated` onto the user
channel. -/
def on_current_user_update (core : Discord) : Discord :=
  { core with user_events := single_write core.user_events UserEvent.currentUserUpdated }

/-- `on_activity_join` of `src/event.rs`: decodes the secret C string; on
success pushes `ActivityEvent::Join` onto the activity channel, on decode
failure logs the error and drops the occurrence. -/
def on_activity_join (core : Discord) (secret : List Nat) : Discord :=
  match from_cstr secret with
  | some s =>
    { core with activity_events := single_write core.activity_events (ActivityEvent.join s) }
  | none => core

/-- `on_activity_spectate` of `src/event.rs`: like `on_activity_join` but
for `ActivityEvent::Spectate`. -/
def on_activity_spectate (core : Discord) (secret : List Nat) : Discord :=
  match from_cstr secret with
  | some s =>
    { core with activity_events := single_write core.activity_events (ActivityEvent.spectate s) }
  | none => core

/-- `on_activity_join_request` of `src/event.rs`: decodes the raw user
struct; on success pushes `ActivityEvent::Request`, on decode failure logs
and drops. -/
def on_activity_join_request (core : Discord) (user : DiscordUser) : Discord :=
  match User.from_sys user with
  | some u =>
    { core with activity_events := single_write core.activity_events (ActivityEvent.request u) }
  | none => core

/-- `on_activity_invite` of `src/event.rs`: decodes the raw user struct,
then the raw activity struct; on success pushes `ActivityEvent::Invite`,
on either decode failure logs and drops. The received action type `ty` is
not used by the source. -/
def on_activity_invite (core : Discord) (ty : Int) (user : DiscordUser)
    (activity : DiscordActivity) : Discord :=
  match (do
      let u ← User.from_sys user
      let a ← Activity.from_sys activity
      pure (ActivityEvent.invite u a)) with
  | some ev => { core with activity_events := single_write core.activity_events ev }
  | none => core

/-- `on_toggle` of `src/event.rs`: pushes `Opened` or `Closed` onto the
overlay channel according to the `locked` flag. -/
def on_toggle (core : Discord) (locked : Bool) : Discord :=
  { core with overlay_events :=
      single_write core.overlay_events (if locked then OverlayEvent.opened else OverlayEvent.closed) }

/-- `on_settings_update` of `src/event.rs`: pushes `SettingsUpdated` onto
the voice channel. -/
def on_settings_update (core : Discord) : Discord :=
  { core with voice_events := single_write core.voice_events VoiceEvent.settingsUpdated }

/-- C4: when a dispatch-table callback of `src/event.rs` fails to decode
its inbound native data (an invalid-UTF-8 C string, or a raw struct with
an invalid text field), the occurrence is logged and dropped: the owner
handle's state is unchanged — no event of any kind is pushed onto any
channel — and the callback still returns normally (it is total and yields
no error value to native code). -/
theorem dispatch_decode_failure_dropped (core : Discord) :
    (∀ secret : List Nat, from_cstr secret = none →
      on_activity_join core secret = core)
    ∧ (∀ secret : List Nat, from_cstr secret = none →
      on_activity_spectate core secret = core)
    ∧ (∀ user : DiscordUser, User.from_sys user = none →
      on_activity_join_request core user = core)
    ∧ (∀ (ty : Int) (user : DiscordUser) (activity : DiscordActivity),
      User.from_sys user = none ∨ Activity.from_sys activity = none →
      on_activity_invite core ty user activity = core) := by
  refine ⟨?_, ?_, ?_, ?_⟩
  · intro secret h
    rw [on_activity_join, h]
  · intro secret h
    rw [on_activity_spectate, h]
  · intro user h
    rw [on_activity_join_request, h]
  · intro ty user activity h
    rcases h with h | h
    · rw [on_activity_invite, h]
      rfl
    · rw [on_activity_invite]
      cases hu : User.from_sys user with
      | none => rfl
      | some u => rw [Option.bind_eq_bind, Option.some_bind, h]; rfl

/-- Witness for `dispatch_decode_failure_dropped` at concrete inputs: the
byte `0xFF` is not valid UTF-8, so firing `on_activity_join` with it on an
empty owner handle leaves every channel empty, and likewise for an invite
whose user's username buffer is invalid. -/
theorem dispatch_decode_failure_dropped_witness :
    on_activity_join ⟨[], [], [], []⟩ [255] = ⟨[], [], [], []⟩
    ∧ on_activity_invite ⟨[], [], [], []⟩ 0 ⟨1, [255], [], [], false⟩
        ⟨2, [], [], [], [], [], [], [], [], [], [], [], false⟩ = ⟨[], [], [], []⟩ :=
  ⟨(dispatch_decode_failure_dropped ⟨[], [], [], []⟩).1 [255] (by decide),
   (dispatch_decode_failure_dropped ⟨[], [], [], []⟩).2.2.2 0 ⟨1, [255], [], [], false⟩
     ⟨2, [], [], [], [], [], [], [], [], [], [], [], false⟩
     (Or.inl (by decide))⟩

/-- Modelled from the spec: the construction of one delivery queue by
`create_channels` (`src/event/channels.rs` uses `crossbeam_channel::unbounded`):
a freshly created channel holds no events. -/
def unbounded_queue {α : Type} : List α := []

/-- Modelled from the spec: draining a channel (`Receiver::try_iter`)
yields the currently queued events front-to-back, in the order they were
sent. -/
def try_iter_all {α : Type} (q : List α) : List α := q

/-- Firing the `on_current_user_update` dispatch slot `n` times in
sequence during one poll. -/
def fire_current_user_update : Nat → Discord → Discord
  | 0, core => core
  | n + 1, core => fire_current_user_update n (on_current_user_update core)

/-- C5: channels are unbounded FIFO queues — sending a sequence of events
onto one channel during one poll and then draining it yields exactly those
events, after the previously queued ones, in the order they were sent; in
particular firing the `on_current_user_update` callback `n` times appends
exactly `n` `CurrentUserUpdated` events, in firing order, to the user
channel. -/
theorem channel_fifo_order :
    (∀ (α : Type) (es q : List α),
      try_iter_all (es.foldl single_write q) = try_iter_all q ++ es)
    ∧ (∀ es : List UserEvent,
      try_iter_all (es.foldl single_write unbounded_queue) = es)
    ∧ (∀ (n : Nat) (core : Discord),
      (fire_current_user_update n core).user_events
        = core.user_events ++ List.replicate n UserEvent.currentUserUpdated) := by
  have hfold : ∀ (α : Type) (es q : List α),
      try_iter_all (es.foldl single_write q) = try_iter_all q ++ es := by
    intro α es
    induction es with
    | nil => intro q; simp [try_iter_all]
    | cons e es ih =>
      intro q
      rw [List.foldl_cons, ih (single_write q e)]
      simp [try_iter_all, single_write]
  refine ⟨hfold, ?_, ?_⟩
  · intro es
    rw [hfold UserEvent es unbounded_queue]
    rfl
  · intro n
    induction n with
    | zero => intro core; simp [fire_current_user_update]
    | succ n ih =>
      intro core
      rw [fire_current_user_update, ih (on_current_user_update core)]
      simp [on_current_user_update, single_write, List.replicate_succ]

/-- C8: firing the registered voice "settings updated" slot appends
exactly one `SettingsUpdated` event to the voice channel and changes no
other channel; in particular, firing it once starting from empty channels
and then draining yields exactly one voice event and zero events
everywhere else. -/
theorem voice_settings_update_single_event :
    (∀ core : Discord,
      (on_settings_update core).voice_events
          = core.voice_events ++ [VoiceEvent.settingsUpdated]
      ∧ (on_settings_update core).user_events = core.user_events
      ∧ (on_settings_update core).activity_events = core.activity_events
      ∧ (on_settings_update core).overlay_events = core.overlay_events)
    ∧ on_settings_update ⟨[], [], [], []⟩
        = ⟨[], [], [], [VoiceEvent.settingsUpdated]⟩ := by
  constructor
  · intro core
    exact ⟨rfl, rfl, rfl, rfl⟩
  · rfl

/-- `Iterator::for_each(drop)` over a channel's `try_iter`: every queued
event is popped and dropped in turn, with no event-specific processing —
the traversal is uniform in the element type. -/
def for_each_drop {α : Type} : List α → List α
  | [] => []
  | _ :: rest => for_each_drop rest

/-- `Receivers` of `src/event/channels.rs`: the consumer halves of the 22
per-event-kind channels created together by `create_channels`. The event
types (defined outside `src/`) are type parameters, so nothing here can
depend on an event's contents. Each receiver is represented by its queue
of pending events. -/
structure Receivers (A B C D E F G H I J K L M N O P Q R S T U V : Type) where
  achievements_update : List A
  activities_join : List B
  activities_spectate : List C
  activities_request : List D
  activities_invite : List E
  lobbies_update : List F
  lobbies_delete : List G
  lobbies_member_connect : List H
  lobbies_member_update : List I
  lobbies_member_disconnect : List J
  lobbies_message : List K
  lobbies_speaking : List L
  lobbies_network_message : List M
  networking_message : List N
  networking_route_update : List O
  overlay_toggle : List P
  relationships_refresh : List Q
  relationships_update : List R
  store_entitlement_create : List S
  store_entitlement_delete : List T
  current_user_update : List U
  voice_settings_update : List V

/-- `Receivers::empty_channels` of `src/event/channels.rs`: runs
`try_iter().for_each(drop)` on every one of the 22 channels. -/
def Receivers.empty_channels {A B C D E F G H I J K L M N O P Q R S T U V : Type}
    (r : Receivers A B C D E F G H I J K L M N O P Q R S T U V) :
    Receivers A B C D E F G H I J K L M N O P Q R S T U V where
  achievements_update := for_each_drop r.achievements_update
  activities_join := for_each_drop r.activities_join
  activities_spectate := for_each_drop r.activities_spectate
  activities_request := for_each_drop r.activities_request
  activities_invite := for_each_drop r.activities_invite
  lobbies_update := for_each_drop r.lobbies_update
  lobbies_delete := for_each_drop r.lobbies_delete
  lobbies_member_connect := for_each_drop r.lobbies_member_connect
  lobbies_member_update := for_each_drop r.lobbies_member_update
  lobbies_member_disconnect := for_each_drop r.lobbies_member_disconnect
  lobbies_message := for_each_drop r.lobbies_message
  lobbies_speaking := for_each_drop r.lobbies_speaking
  lobbies_network_message := for_each_drop r.lobbies_network_message
  networking_message := for_each_drop r.networking_message
  networking_route_update := for_each_drop r.networking_route_update
  overlay_toggle := for_each_drop r.overlay_toggle
  relationships_refresh := for_each_drop r.relationships_refresh
  relationships_update := for_each_drop r.relationships_update
  store_entitlement_create := for_each_drop r.store_entitlement_create
  store_entitlement_delete := for_each_drop r.store_entitlement_delete
  current_user_update := for_each_drop r.current_user_update
  voice_settings_update := for_each_drop r.voice_settings_update

theorem for_each_drop_eq_nil {α : Type} (l : List α) : for_each_drop l = [] := by
  induction l with
  | nil => rfl
  | cons a rest ih => rw [for_each_drop, ih]

/-- C7: `Receivers::empty_channels` removes every queued event from every
one of the 22 channels — afterwards draining any channel yields nothing —
and, being uniform in the event types, it performs no event-specific
decode or processing: its result is the same for any two receiver
states. -/
theorem empty_channels_discards_all
    (A B C D E F G H I J K L M N O P Q R S T U V : Type)
    (r : Receivers A B C D E F G H I J K L M N O P Q R S T U V) :
    r.empty_channels.achievements_update = []
    ∧ r.empty_channels.activities_join = []
    ∧ r.empty_channels.activities_spectate = []
    ∧ r.empty_channels.activities_request = []
    ∧ r.empty_channels.activities_invite = []
    ∧ r.empty_channels.lobbies_update = []
    ∧ r.empty_channels.lobbies_delete = []
    ∧ r.empty_channels.lobbies_member_connect = []
    ∧ r.empty_channels.lobbies_member_update = []
    ∧ r.empty_channels.lobbies_member_disconnect = []
    ∧ r.empty_channels.lobbies_message = []
    ∧ r.empty_channels.lobbies_speaking = []
    ∧ r.empty_channels.lobbies_network_message = []
    ∧ r.empty_channels.networking_message = []
    ∧ r.empty_channels.networking_route_update = []
    ∧ r.empty_channels.overlay_toggle = []
    ∧ r.empty_channels.relationships_refresh = []
    ∧ r.empty_channels.relationships_update = []
    ∧ r.empty_channels.store_entitlement_create = []
    ∧ r.empty_channels.store_entitlement_delete = []
    ∧ r.empty_channels.current_user_update = []
    ∧ r.empty_channels.voice_settings_update = []
    ∧ (∀ r' : Receivers A B C D E F G H I J K L M N O P Q R S T U V,
        r.empty_channels = r'.empty_channels) := by
  refine ⟨?_, ?_, ?_, ?_, ?_, ?_, ?_, ?_, ?_, ?_, ?_, ?_, ?_, ?_, ?_, ?_, ?_,
    ?_, ?_, ?_, ?_, ?_, ?_⟩ <;>
    first
      | exact for_each_drop_eq_nil _
      | (intro r'
         show Receivers.mk _ _ _ _ _ _ _ _ _ _ _ _ _ _ _ _ _ _ _ _ _ _
            = Receivers.mk _ _ _ _ _ _ _ _ _ _ _ _ _ _ _ _ _ _ _ _ _ _
         simp only [for_each_drop_eq_nil])

/-- Modelled from the spec: the outcome a native-called function hands
back across the C ABI — either control returns normally with a value, or
an internal panic unwinds across the boundary (undefined behavior), or a
guard converted the panic into a controlled process abort. -/
inductive FfiOutcome (α : Type) where
  | returned (a : α)
  | unwound
  | aborted
deriving DecidableEq

/-- The possibly-panicking result of running a callback's body. -/
inductive Panics (α : Type) where
  | ok (a : α)
  | panicked
deriving DecidableEq

/-- An `extern "C"` function with no unwind guard, as written in
`src/event.rs`: a normal body result returns to native code, and a panic
unwinds straight across the ABI boundary. -/
def ffi_boundary {α : Type} : Panics α → FfiOutcome α
  | Panics.ok a => FfiOutcome.returned a
  | Panics.panicked => FfiOutcome.unwound

/-- Modelled from the spec: the `prevent_unwind!` guard (its defining
macro is not under `src/`; `mock/src/achievement.rs` invokes it): it
intercepts an internal panic and converts it into a controlled process
abort before control returns to native code, and adds no behavior on the
non-panicking path. -/
def prevent_unwind {α : Type} : Panics α → FfiOutcome α
  | Panics.ok a => FfiOutcome.returned a
  | Panics.panicked => FfiOutcome.aborted

/-- `Option::unwrap`: yields the value, or panics on `none`. -/
def unwrap {α : Type} : Option α → Panics α
  | some a => Panics.ok a
  | none => Panics.panicked

/-- The body of `on_current_user_update` in `src/event.rs`:
`(event_data as *mut Discord).as_mut().unwrap()` — which panics when the
context pointer is null (`none`) — followed by the channel push. -/
def on_current_user_update_body (event_data : Option Discord) : Panics Discord :=
  match unwrap event_data with
  | Panics.ok core => Panics.ok (on_current_user_update core)
  | Panics.panicked => Panics.panicked

/-- The full `extern "C" fn on_current_user_update` of `src/event.rs`,
whose address is placed in the registered `IDiscordUserEvents` table: its
body runs with no unwind guard of any kind around it. -/
def on_current_user_update_c (event_data : Option Discord) : FfiOutcome Discord :=
  ffi_boundary (on_current_user_update_body event_data)

/-- `set_user_achievement` of `mock/src/achievement.rs`: the body is
`prevent_unwind!()` and nothing else, so it returns unit under the
guard. -/
def set_user_achievement (achievement_id : Int) (percent_complete : Int) :
    FfiOutcome Unit :=
  prevent_unwind (Panics.ok ())

/-- C6 fails on the code: the dispatch-table callback
`on_current_user_update` of `src/event.rs` is handed to the native library
with no unwind guard, so at a null context pointer its internal panic
(`unwrap`) unwinds across the C boundary instead of being converted to a
controlled abort; the mock entry point `set_user_achievement`, by
contrast, runs under `prevent_unwind!` and returns normally. -/
theorem on_current_user_update_unguarded :
    on_current_user_update_c none = FfiOutcome.unwound
    ∧ on_current_user_update_c none ≠ FfiOutcome.aborted
    ∧ set_user_achievement 0 0 = FfiOutcome.returned () := by
  refine ⟨rfl, ?_, rfl⟩
  intro h
  exact absurd h (by decide)

end DiscordGameSdk
